import Mathlib

/-!
Verification development for the rdev input capture and synthesis library.

The definitions below are a shallow embedding of the library's Windows and
macOS backends: pure data is translated directly, stateful code is explicit
state passing, OS interaction is an explicit environment record together with
a trace of issued OS calls, and machine floats that only ever hold exact
decimal products are modelled as rationals.  Wall-clock timestamps are not
modelled (no claim mentions them), so the Event record omits the time field.
-/

namespace Rdev

/-! ## Event vocabulary (rdev.rs data contract) -/

inductive Button where
  | Left
  | Right
  | Middle
  | Unknown (code : Nat)
deriving DecidableEq, Repr

inductive RawKey where
  | MacVirtualKeycode (code : Nat)
  | ScanCode (code : Nat)
  | LinuxKeycode (code : Nat)
  | WinVirtualKeycode (code : Nat)
deriving DecidableEq, Repr

/-- Modelled from the spec: the full Key enum lives in the keycode-table
module which is not among the provided sources; only the named keys this
development needs are listed, with Unknown as the escape hatch. -/
inductive Key where
  | KeyA
  | ShiftLeft
  | ShiftRight
  | Alt
  | AltGr
  | CapsLock
  | MetaLeft
  | RawKey (rk : RawKey)
  | Unknown (code : Nat)
deriving DecidableEq, Repr

inductive EventType where
  | KeyPress (key : Key)
  | KeyRelease (key : Key)
  | ButtonPress (button : Button)
  | ButtonRelease (button : Button)
  | MouseMove (x y : ℚ)
  | Wheel (delta_x delta_y : ℚ)
  | KeyPressRaw (key : Key)
  | KeyReleaseRaw (key : Key)
  | ButtonPressRaw (button : Button)
  | ButtonReleaseRaw (button : Button)
  | MouseMoveRaw (delta_x delta_y : Int)
  | WheelRaw (delta_x delta_y : ℚ)
deriving DecidableEq, Repr

/-- Composed-text descriptor.  The produced UTF-16 units are kept as a list
of naturals; the name field records the decoded string as its unit list when
UTF-16 decoding succeeds (String.from_utf16(...).ok() in the source). -/
structure UnicodeInfo where
  name : Option (List Nat)
  unicode : List Nat
  is_dead : Bool
deriving DecidableEq, Repr

structure Event where
  event_type : EventType
  unicode : Option UnicodeInfo
  platform_code : Nat
  position_code : Nat
  usb_hid : Nat
  extra_data : Int
  is_synthetic : Bool
deriving DecidableEq, Repr

inductive ListenError where
  | EventTapError
  | LoopSourceError
  | KeyHookError (code : Nat)
  | MouseHookError (code : Nat)
  | AlreadyListening
deriving DecidableEq, Repr

inductive GrabError where
  | EventTapError
  | LoopSourceError
  | KeyHookError (code : Nat)
  | MouseHookError (code : Nat)
  | AlreadyGrabbing
  | ExitGrabError
deriving DecidableEq, Repr

inductive SimulateError where
  | SimulateError
deriving DecidableEq, Repr

/-! ## Keycode table (macOS)

Modelled from the spec: the bidirectional keycode tables are in the crate's
keycodes module, not among the provided sources.  Only the pairs exercised
here are listed; every other code maps to Unknown and every other key has no
macOS code. -/

def key_from_code (code : Nat) : Key :=
  if code = 0 then .KeyA
  else if code = 56 then .ShiftLeft
  else if code = 60 then .ShiftRight
  else if code = 58 then .Alt
  else if code = 61 then .AltGr
  else if code = 57 then .CapsLock
  else if code = 55 then .MetaLeft
  else .Unknown code

def code_from_key : Key → Option Nat
  | .KeyA => some 0
  | .ShiftLeft => some 56
  | .ShiftRight => some 60
  | .Alt => some 58
  | .AltGr => some 61
  | .CapsLock => some 57
  | .MetaLeft => some 55
  | _ => none

/-! ## macOS native event model and conversion (macos/common.rs) -/

inductive CGEventTypeM where
  | null
  | leftMouseDown
  | leftMouseUp
  | rightMouseDown
  | rightMouseUp
  | otherMouseDown
  | otherMouseUp
  | mouseMoved
  | leftMouseDragged
  | rightMouseDragged
  | keyDown
  | keyUp
  | flagsChanged
  | scrollWheel
  | tapDisabledByTimeout
  | tapDisabledByUserInput
  | other (code : Nat)
deriving DecidableEq, Repr

/-- The fields of a CGEvent that convert reads.  keycode is the result of
get_code (none when the keyboard-event-keycode field does not fit in u16),
sourceOk records whether new_source_from_event succeeded and
sourceStateIsHID whether the source state id equals HIDSystemState. -/
structure CGEventData where
  eventType : CGEventTypeM
  userData : Int
  sourceOk : Bool
  sourceStateIsHID : Bool
  keycode : Option Nat
  flags : Nat
  buttonNumber : Int
  deltaX : Int
  deltaY : Int
  locX : ℚ
  locY : ℚ
  wheelAxis1 : Int
  wheelAxis2 : Int
deriving DecidableEq, Repr

/-- The synthetic-origin test of convert: the source state differs from
HIDSystemState (false when the source cannot be retrieved), or the
event-source user data equals the marker 100. -/
def isSyntheticOf (e : CGEventData) : Bool :=
  (if e.sourceOk then !e.sourceStateIsHID else false) || (e.userData == 100)

/-- Environment for convert: the keyboard-state Unicode translator
(create_unicode_for_key), taking the keycode and the event's flag word. -/
structure ConvEnv where
  translate : Nat → Nat → Option UnicodeInfo

/-- Every Event record built by convert has this shape: position_code and
usb_hid are 0, extra_data is the event-source user data, is_synthetic is the
shared synthetic test. -/
def mkEvent (et : EventType) (uni : Option UnicodeInfo) (pc : Nat) (e : CGEventData) : Event :=
  { event_type := et
    unicode := uni
    platform_code := pc
    position_code := 0
    usb_hid := 0
    extra_data := e.userData
    is_synthetic := isSyntheticOf e }

/-- convert from macos/common.rs: native event plus the process-wide
LAST_FLAGS word in, list of portable events plus the updated LAST_FLAGS out. -/
def convert (env : ConvEnv) (e : CGEventData) (lastFlags : Nat) : List Event × Nat :=
  match e.eventType with
  | .leftMouseDown =>
      ([mkEvent (.ButtonPressRaw .Left) none 0 e,
        mkEvent (.ButtonPress .Left) none 0 e], lastFlags)
  | .leftMouseUp =>
      ([mkEvent (.ButtonReleaseRaw .Left) none 0 e,
        mkEvent (.ButtonRelease .Left) none 0 e], lastFlags)
  | .rightMouseDown =>
      ([mkEvent (.ButtonPressRaw .Right) none 0 e,
        mkEvent (.ButtonPress .Right) none 0 e], lastFlags)
  | .rightMouseUp =>
      ([mkEvent (.ButtonReleaseRaw .Right) none 0 e,
        mkEvent (.ButtonRelease .Right) none 0 e], lastFlags)
  | .otherMouseDown =>
      let button := if e.buttonNumber = 2 then Button.Middle
        else Button.Unknown ((e.buttonNumber % 256).toNat)
      ([mkEvent (.ButtonPressRaw button) none 0 e,
        mkEvent (.ButtonPress button) none 0 e], lastFlags)
  | .otherMouseUp =>
      let button := if e.buttonNumber = 2 then Button.Middle
        else Button.Unknown ((e.buttonNumber % 256).toNat)
      ([mkEvent (.ButtonReleaseRaw button) none 0 e,
        mkEvent (.ButtonRelease button) none 0 e], lastFlags)
  | .mouseMoved =>
      let raw := if e.deltaX ≠ 0 ∨ e.deltaY ≠ 0
        then [mkEvent (.MouseMoveRaw e.deltaX e.deltaY) none 0 e] else []
      (raw ++ [mkEvent (.MouseMove e.locX e.locY) none 0 e], lastFlags)
  | .leftMouseDragged =>
      let raw := if e.deltaX ≠ 0 ∨ e.deltaY ≠ 0
        then [mkEvent (.MouseMoveRaw e.deltaX e.deltaY) none 0 e] else []
      (raw ++ [mkEvent (.MouseMove e.locX e.locY) none 0 e], lastFlags)
  | .rightMouseDragged =>
      let raw := if e.deltaX ≠ 0 ∨ e.deltaY ≠ 0
        then [mkEvent (.MouseMoveRaw e.deltaX e.deltaY) none 0 e] else []
      (raw ++ [mkEvent (.MouseMove e.locX e.locY) none 0 e], lastFlags)
  | .keyDown =>
      match e.keycode with
      | none => ([], lastFlags)
      | some code =>
          let key := key_from_code code
          let skip_unicode := code = 56 ∨ code = 60 ∨ code = 117
          let uni := if skip_unicode then none else env.translate code e.flags
          ([mkEvent (.KeyPressRaw key) uni code e,
            mkEvent (.KeyPress key) uni code e], lastFlags)
  | .keyUp =>
      match e.keycode with
      | none => ([], lastFlags)
      | some code =>
          let key := key_from_code code
          ([mkEvent (.KeyReleaseRaw key) none code e,
            mkEvent (.KeyRelease key) none code e], lastFlags)
  | .flagsChanged =>
      match e.keycode with
      | none => ([], lastFlags)
      | some code =>
          let key := key_from_code code
          if e.flags < lastFlags then
            ([mkEvent (.KeyReleaseRaw key) none code e,
              mkEvent (.KeyRelease key) none code e], e.flags)
          else
            ([mkEvent (.KeyPressRaw key) none code e,
              mkEvent (.KeyPress key) none code e], e.flags)
  | .scrollWheel =>
      ([mkEvent (.WheelRaw (e.wheelAxis2 : ℚ) (e.wheelAxis1 : ℚ)) none 0 e,
        mkEvent (.Wheel (e.wheelAxis2 : ℚ) (e.wheelAxis1 : ℚ)) none 0 e], lastFlags)
  | _ => ([], lastFlags)

/-! ## macOS tap callbacks (macos/grab.rs, macos/listen.rs) -/

inductive TapOutcome where
  | nulled
  | forwarded
  | suppressed
deriving DecidableEq, Repr

structure TapState where
  lastFlags : Nat
  keyboardAvailable : Bool
  callbackRegistered : Bool

/-- raw_callback of macos/listen.rs: same structure but only delivers. -/
def listen_raw_callback (env : ConvEnv) (st : TapState) (eventNull : Bool)
    (e : CGEventData) : TapOutcome × List Event × Nat :=
  if e.eventType = .tapDisabledByTimeout ∨ e.eventType = .tapDisabledByUserInput then
    (.nulled, [], st.lastFlags)
  else if e.eventType = .null ∨ eventNull then
    (.forwarded, [], st.lastFlags)
  else if st.keyboardAvailable then
    let r := convert env e st.lastFlags
    ((.forwarded), (if st.callbackRegistered then r.1 else []), r.2)
  else (.forwarded, [], st.lastFlags)

/-! ## macOS entry points (macos/listen.rs listen, macos/grab.rs grab) -/

structure WinHookEnv where
  convertResult : Option EventType × Nat
  scanCode : Nat
  extraData : Int
  injected : Bool
  getKeyUnicode : Bool
  unicodeResult : Option UnicodeInfo

inductive HookOutcome where
  | blocked
  | forwarded
deriving DecidableEq, Repr

/-- The Event record both Windows hook callbacks build for a decoded event. -/
def windows_hook_event (henv : WinHookEnv) (et : EventType) (uni : Option UnicodeInfo) : Event :=
  { event_type := et
    unicode := uni
    platform_code := henv.convertResult.2
    position_code := henv.scanCode
    usb_hid := 0
    extra_data := henv.extraData
    is_synthetic := henv.injected }

/-- raw_callback of windows/listen.rs: delivers the event (when a callback
is registered) and always forwards via CallNextHookEx. -/
def windows_listen_callback (hcAction : Bool) (henv : WinHookEnv)
    (callbackRegistered : Bool) : Option Event × HookOutcome :=
  if hcAction then
    match henv.convertResult.1 with
    | some et =>
        ((if callbackRegistered then some (windows_hook_event henv et none) else none),
         .forwarded)
    | none => (none, .forwarded)
  else (none, .forwarded)

/-- emit_raw_event of windows/listen.rs: the Raw Input delivery path.  Every
field other than the event type is a constant; in particular is_synthetic is
always false, whatever produced the underlying report. -/
def emit_raw_event (et : EventType) : Event :=
  { event_type := et
    unicode := none
    platform_code := 0
    position_code := 0
    usb_hid := 0
    extra_data := 0
    is_synthetic := false }

/-! ## Windows touchpad HID parsing (windows/listen.rs) -/

structure WinEnv where
  keyboardOnly : Bool
  keyHook : Option Nat
  keyHookErr : Nat
  mouseHook : Option Nat
  mouseHookErr : Nat
  threadId : Nat

inductive WinCall where
  | unhookKeyboard (handle : Nat)
deriving DecidableEq, Repr

structure WinGrabState where
  curHookThreadId : Nat
  callbackSet : Bool

/-- do_hook of windows/grab.rs.  The null hook handle is modelled as 0.
Returns the result, the updated state, and the teardown calls issued. -/
def do_hook (st : WinGrabState) (env : WinEnv) :
    Except GrabError (Nat × Nat) × WinGrabState × List WinCall :=
  if st.curHookThreadId ≠ 0 then (.ok (0, 0), st, [])
  else if st.callbackSet then (.error .AlreadyGrabbing, st, [])
  else
    let st1 : WinGrabState := { st with callbackSet := true }
    match env.keyHook with
    | none => (.error (.KeyHookError env.keyHookErr), st1, [])
    | some hk =>
        if ¬ env.keyboardOnly then
          match env.mouseHook with
          | none => (.error (.MouseHookError env.mouseHookErr), st1, [.unhookKeyboard hk])
          | some hm => (.ok (hk, hm), { st1 with curHookThreadId := env.threadId }, [])
        else (.ok (hk, 0), { st1 with curHookThreadId := env.threadId }, [])

/-- Modelled from the spec: set_key_hook and set_mouse_hook of the windows
common module are not among the provided sources; per the spec's
hook-install-failure rule, a mouse-hook failure after a successful keyboard
install uninstalls the keyboard hook before returning MouseHookError with
the OS error code. -/
def listen_install (env : WinEnv) : Except ListenError Unit × List WinCall :=
  match env.keyHook with
  | none => (.error (.KeyHookError env.keyHookErr), [])
  | some hk =>
      if ¬ env.keyboardOnly then
        match env.mouseHook with
        | none => (.error (.MouseHookError env.mouseHookErr), [.unhookKeyboard hk])
        | some _ => (.ok (), [])
      else (.ok (), [])

/-- Validity of a UTF-16 unit sequence: String.from_utf16 succeeds exactly
when every high surrogate is followed by a low surrogate and no low
surrogate appears on its own. -/
def utf16Valid : List Nat → Bool
  | [] => true
  | c :: rest =>
      if 0xD800 ≤ c ∧ c ≤ 0xDBFF then
        match rest with
        | c2 :: rest2 => if 0xDC00 ≤ c2 ∧ c2 ≤ 0xDFFF then utf16Valid rest2 else false
        | [] => false
      else if 0xDC00 ≤ c ∧ c ≤ 0xDFFF then false
      else utf16Valid rest

/-- The single-character C0-control test of unicode_from_code_static: one
produced unit whose decoded character lies in U+0001..U+001F (such a unit is
never a surrogate, so from_utf16 always succeeds on it). -/
def isC0 : List Nat → Bool
  | [c] => 1 ≤ c ∧ c ≤ 31
  | _ => false

/-- The UCKeyTranslate oracle result: the written unit prefix (its length is
the actual_length out-parameter) and the updated dead-key state word. -/
structure UCResult where
  units : List Nat
  deadStateOut : Nat

/-- The OS environment of unicode_from_code_static: whether each input
source in the fallback chain yields Unicode key-layout data, whether the
layout byte pointer is non-null, and the UCKeyTranslate behaviour as a
function of keycode, modifier state and incoming dead state. -/
structure TISEnv where
  layout1 : Bool
  layout2 : Bool
  layout3 : Bool
  bytePtrOk : Bool
  uc : Nat → Nat → Nat → UCResult

def layoutFound (env : TISEnv) : Bool := env.layout1 || env.layout2 || env.layout3

/-- unicode_from_code_static of macos/keyboard.rs: translation with the
dead-key state threaded through; returns the optional descriptor and the
dead state to store back. -/
def unicode_from_code_static (env : TISEnv) (code ms ds : Nat) :
    Option UnicodeInfo × Nat :=
  if ¬ layoutFound env then (none, ds)
  else if ¬ env.bytePtrOk then (none, ds)
  else if 65536 ≤ code then (none, ds)
  else
    let r := env.uc code ms ds
    if r.units.length = 0 then
      if r.deadStateOut ≠ 0 then
        (some { name := none, unicode := [], is_dead := true }, r.deadStateOut)
      else (none, r.deadStateOut)
    else if r.units.length = 1 ∧ isC0 r.units then
      (none, r.deadStateOut)
    else
      (some { name := if utf16Valid r.units then some r.units else none
              unicode := r.units
              is_dead := false }, r.deadStateOut)

/-! ## macOS synthesis engine (macos/simulate.rs) -/

/-- The OS calls the synthesis path can issue, in order of issue. -/
inductive OSCall where
  | createSource
  | newKeyboardEvent (code : Nat) (keyDown : Bool)
  | newEvent
  | newMouseEvent
  | newScrollWheelEvent
  | post
deriving DecidableEq, Repr

inductive NativeEventKind where
  | keyboard (code : Nat) (keyDown : Bool)
  | mouse (mtype : CGEventTypeM) (x y : ℚ)
  | scrollWheel (wheelCount : Nat) (v1 v2 v3 : Int)
deriving DecidableEq, Repr

/-- A constructed CGEvent as the synthesis path shapes it: the constructor
arguments, the flag word when set_flags was applied, and the event-source
user-data field (none when the field was never written). -/
structure NativeEvent where
  kind : NativeEventKind
  flags : Option Nat
  userData : Option Int
deriving DecidableEq, Repr

def maskSecondaryFn : Nat := 0x800000
def maskNumericPad : Nat := 0x200000
def maskHelp : Nat := 0x400000

/-- flags AND NOT mask, on the u64 bit words (the masked bits are a subset
of flags, so plain subtraction of the intersection is exact). -/
def stripMask (flags mask : Nat) : Nat := flags - (flags &&& mask)

/-- The keycodes of workaround_fn's first arm: F1..F19, keypad clear,
forward delete, home, end, page down, page up, spotlight, application,
launchpad, brightness up and down. -/
def isFnWorkaroundKey (code : Nat) : Bool :=
  code ∈ [0x7A, 0x78, 0x63, 0x76, 0x60, 0x61, 0x62, 0x64, 0x65, 0x6D, 0x67,
          0x6F, 0x69, 0x6B, 0x71, 0x6A, 0x40, 0x4F, 0x50, 0x47, 0x75, 0x73,
          0x77, 0x79, 0x74, 129, 130, 131, 144, 145]

def isArrowKey (code : Nat) : Bool := code ∈ [0x7E, 0x7D, 0x7B, 0x7C]

/-- workaround_fn of macos/simulate.rs, as its effect on the flag word. -/
def workaround_fn (flags code : Nat) : Nat :=
  if isFnWorkaroundKey code then stripMask flags maskSecondaryFn
  else if isArrowKey code then stripMask flags (maskSecondaryFn ||| maskNumericPad)
  else if code = 0x72 then stripMask flags (maskSecondaryFn ||| maskHelp)
  else flags

/-- The OS environment of the synthesis path: success of each CGEvent
constructor, the cursor position, and the LAST_FLAGS word read when key
events apply the latched modifiers. -/
structure SimEnv where
  sourceOk : Bool
  keyboardEventOk : Bool
  mouseEventOk : Bool
  wheelEventOk : Bool
  newEventOk : Bool
  mouseLoc : ℚ × ℚ
  lastFlags : Nat

/-- Rust f64 round: half away from zero. -/
def rustRound (q : ℚ) : Int := if 0 ≤ q then ⌊q + 1 / 2⌋ else -⌊-q + 1 / 2⌋

/-- get_current_mouse_location: creates a fresh HIDSystemState source and a
blank event and reads its location. -/
def get_current_mouse_location (env : SimEnv) : Option (ℚ × ℚ) × List OSCall :=
  if ¬ env.sourceOk then (none, [.createSource])
  else if ¬ env.newEventOk then (none, [.createSource, .newEvent])
  else (some env.mouseLoc, [.createSource, .newEvent])

/-- Builds a keyboard native event when the OS constructor succeeds,
applying the latched flags and, on key release, the Fn workaround. -/
def build_keyboard_event (env : SimEnv) (code : Nat) (keyDown : Bool) :
    Option NativeEvent × List OSCall :=
  if env.keyboardEventOk then
    (some { kind := .keyboard code keyDown
            flags := some (if keyDown then env.lastFlags
                           else workaround_fn env.lastFlags code)
            userData := none }, [.newKeyboardEvent code keyDown])
  else (none, [.newKeyboardEvent code keyDown])

/-- convert_native_with_source of macos/simulate.rs: portable event type to
optional native event, with the trace of OS calls issued. -/
def convert_native_with_source (env : SimEnv) (et : EventType) :
    Option NativeEvent × List OSCall :=
  match et with
  | .KeyPress key =>
      match key with
      | .RawKey rk =>
          match rk with
          | .MacVirtualKeycode code => build_keyboard_event env code true
          | _ => (none, [])
      | _ =>
          match code_from_key key with
          | none => (none, [])
          | some code => build_keyboard_event env code true
  | .KeyRelease key =>
      match key with
      | .RawKey rk =>
          match rk with
          | .MacVirtualKeycode code => build_keyboard_event env code false
          | _ => (none, [])
      | _ =>
          match code_from_key key with
          | none => (none, [])
          | some code => build_keyboard_event env code false
  | .ButtonPress button =>
      let loc := get_current_mouse_location env
      match loc.1 with
      | none => (none, loc.2)
      | some p =>
          match button with
          | .Left =>
              if env.mouseEventOk then
                (some { kind := .mouse .leftMouseDown p.1 p.2, flags := none,
                        userData := none }, loc.2 ++ [.newMouseEvent])
              else (none, loc.2 ++ [.newMouseEvent])
          | .Right =>
              if env.mouseEventOk then
                (some { kind := .mouse .rightMouseDown p.1 p.2, flags := none,
                        userData := none }, loc.2 ++ [.newMouseEvent])
              else (none, loc.2 ++ [.newMouseEvent])
          | _ => (none, loc.2)
  | .ButtonRelease button =>
      let loc := get_current_mouse_location env
      match loc.1 with
      | none => (none, loc.2)
      | some p =>
          match button with
          | .Left =>
              if env.mouseEventOk then
                (some { kind := .mouse .leftMouseUp p.1 p.2, flags := none,
                        userData := none }, loc.2 ++ [.newMouseEvent])
              else (none, loc.2 ++ [.newMouseEvent])
          | .Right =>
              if env.mouseEventOk then
                (some { kind := .mouse .rightMouseUp p.1 p.2, flags := none,
                        userData := none }, loc.2 ++ [.newMouseEvent])
              else (none, loc.2 ++ [.newMouseEvent])
          | _ => (none, loc.2)
  | .MouseMove x y =>
      if env.mouseEventOk then
        (some { kind := .mouse .mouseMoved x y, flags := none, userData := none },
         [.newMouseEvent])
      else (none, [.newMouseEvent])
  | .Wheel delta_x delta_y =>
      if env.wheelEventOk then
        (some { kind := .scrollWheel 2 (rustRound delta_y) (rustRound delta_x) 0,
                flags := none, userData := none }, [.newScrollWheelEvent])
      else (none, [.newScrollWheelEvent])
  | .MouseMoveRaw _ _ => (none, [])
  | .ButtonPressRaw _ => (none, [])
  | .ButtonReleaseRaw _ => (none, [])
  | .WheelRaw _ _ => (none, [])
  | .KeyPressRaw _ => (none, [])
  | .KeyReleaseRaw _ => (none, [])

/-- convert_native: creates the HIDSystemState source, then converts. -/
def convert_native (env : SimEnv) (et : EventType) :
    Option NativeEvent × List OSCall :=
  if env.sourceOk then
    let r := convert_native_with_source env et
    (r.1, OSCall.createSource :: r.2)
  else (none, [OSCall.createSource])

/-- The process-wide extra-info words of macos/simulate.rs. -/
structure SimState where
  mouseExtra : Int
  keyboardExtra : Int

def simInit : SimState := { mouseExtra := 0, keyboardExtra := 0 }

def set_mouse_extra_info (st : SimState) (extra : Int) : SimState :=
  { st with mouseExtra := extra }

def set_keyboard_extra_info (st : SimState) (extra : Int) : SimState :=
  { st with keyboardExtra := extra }

/-- simulate of macos/simulate.rs: convert, then write the event-source
user-data field with MOUSE_EXTRA_INFO and post.  Returns the result, the
posted event when one was posted, and the OS-call trace. -/
def simulate (st : SimState) (env : SimEnv) (et : EventType) :
    Except SimulateError Unit × Option NativeEvent × List OSCall :=
  match convert_native env et with
  | (some ne, calls) =>
      (.ok (), some { ne with userData := some st.mouseExtra }, calls ++ [.post])
  | (none, calls) => (.error .SimulateError, none, calls)

/-- VirtualInput::simulate: converts against the pre-built source of the
VirtualInput and posts to its tap location, with no other step. -/
def VirtualInput.simulate (env : SimEnv) (et : EventType) :
    Except SimulateError Unit × Option NativeEvent × List OSCall :=
  match convert_native_with_source env et with
  | (some ne, calls) => (.ok (), some ne, calls ++ [.post])
  | (none, calls) => (.error .SimulateError, none, calls)

/-- The raw-variant test used by the synthesis claims. -/
def isRawVariant : EventType → Bool
  | .KeyPressRaw _ => true
  | .KeyReleaseRaw _ => true
  | .ButtonPressRaw _ => true
  | .ButtonReleaseRaw _ => true
  | .MouseMoveRaw _ _ => true
  | .WheelRaw _ _ => true
  | _ => false

/-! ## Concrete environments used by witnesses -/

def cenv0 : ConvEnv := { translate := fun _ _ => none }

/-- A flags-changed native event with keycode 56 and flag word 5. -/
def cgFlags5 : CGEventData :=
  { eventType := .flagsChanged, userData := 0, sourceOk := true,
    sourceStateIsHID := true, keycode := some 56, flags := 5,
    buttonNumber := 0, deltaX := 0, deltaY := 0, locX := 0, locY := 0,
    wheelAxis1 := 0, wheelAxis2 := 0 }

/-! ## Shared helper lemmas -/

/-- Every portable event built by convert carries the shared synthetic
test of its native event. -/
theorem convert_is_synthetic (cenv : ConvEnv) (e : CGEventData) (lastFlags : Nat) :
    ∀ ev ∈ (convert cenv e lastFlags).1, ev.is_synthetic = isSyntheticOf e := by
  intro ev hev
  rcases e with ⟨etype, ud, so, sh, kc, fl, bn, dx, dy, lx, ly, w1, w2⟩
  cases etype <;> try (cases kc)
  all_goals simp only [convert] at hev
  all_goals try (split at hev)
  all_goals try (dsimp only at hev)
  all_goals
    simp only [List.mem_append, List.mem_cons, List.not_mem_nil,
      or_false, false_or] at hev
  all_goals try (rcases hev with rfl | rfl)
  all_goals rfl

/-- C2 counterexample: an event delivered through the Windows Raw Input
path carries is_synthetic false; the path builds it so for every report,
including reports whose native event was produced by this process's
simulate, contradicting the claim that such deliveries are marked true. -/
theorem c2_counterexample :
    (emit_raw_event (.WheelRaw 0 (-1 / 5))).is_synthetic = false := rfl

/-- C2 (amended): the synthetic marking per delivery path: the Windows Raw
Input path always delivers is_synthetic false, even for simulate-produced
native events; the Windows hook path delivers the injected-flag test; the
macOS tap path marks every event of a native event synthetic exactly when
the event source state differs from HIDSystemState or the event-source
user data equals the marker 100. -/
theorem c2_synthetic_marking_amended (et : EventType) (henv : WinHookEnv)
    (et2 : EventType) (uni : Option UnicodeInfo)
    (cenv : ConvEnv) (e : CGEventData) (lastFlags : Nat) :
    (emit_raw_event et).is_synthetic = false ∧
    (windows_hook_event henv et2 uni).is_synthetic = henv.injected ∧
    (∀ ev ∈ (convert cenv e lastFlags).1, ev.is_synthetic = isSyntheticOf e) :=
  ⟨rfl, rfl, convert_is_synthetic cenv e lastFlags⟩

/-! ## C3 -/

/-- C3 counterexample: a flags-changed event whose flag word equals the
stored previous word (both 5) emits a KeyPressRaw and a KeyPress, where the
claim says the transition emits neither press nor release. -/
theorem c3_counterexample :
    ((convert cenv0 cgFlags5 5).1.map Event.event_type
      = [.KeyPressRaw .ShiftLeft, .KeyPress .ShiftLeft]) ∧
    (convert cenv0 cgFlags5 5).2 = 5 := ⟨rfl, rfl⟩

/-- C3 (amended): on a flags-changed event carrying flag word f whose
keycode reads back, the state machine emits a key release (raw then cooked)
exactly when f < prev_flags and a key press (raw then cooked) exactly when
f ≥ prev_flags — equality emits a press — and stores f as the new
prev_flags in every case. -/
theorem c3_flags_changed_amended (cenv : ConvEnv) (e : CGEventData)
    (lastFlags code : Nat)
    (htype : e.eventType = .flagsChanged) (hcode : e.keycode = some code) :
    ((convert cenv e lastFlags).1.map Event.event_type =
      if e.flags < lastFlags then
        [.KeyReleaseRaw (key_from_code code), .KeyRelease (key_from_code code)]
      else
        [.KeyPressRaw (key_from_code code), .KeyPress (key_from_code code)]) ∧
    (convert cenv e lastFlags).2 = e.flags := by
  rcases e with ⟨etype, ud, so, sh, kc, fl, bn, dx, dy, lx, ly, w1, w2⟩
  simp only at htype hcode
  subst htype
  subst hcode
  simp only [convert]
  split <;> simp_all [mkEvent]

theorem c3_flags_changed_amended_witness :
    ((convert cenv0 cgFlags5 9).1.map Event.event_type =
      if cgFlags5.flags < 9 then
        [.KeyReleaseRaw (key_from_code 56), .KeyRelease (key_from_code 56)]
      else
        [.KeyPressRaw (key_from_code 56), .KeyPress (key_from_code 56)]) ∧
    (convert cenv0 cgFlags5 9).2 = cgFlags5.flags :=
  c3_flags_changed_amended cenv0 cgFlags5 9 56 rfl rfl

/-! ## C4 -/

/-- C5: the macOS Unicode translation returns a descriptor with is_dead
true exactly when the layout data was retrieved, the keycode fits in u16,
and the OS translation produced zero units while the resulting dead state
is nonzero; that descriptor is exactly the empty one (name none, no
codepoints), so every emitted descriptor with is_dead true has empty
codepoints. -/
theorem c5_dead_descriptor (env : TISEnv) (code ms ds : Nat) (u : UnicodeInfo) :
    ((unicode_from_code_static env code ms ds).1 = some u ∧ u.is_dead = true)
    ↔ (layoutFound env = true ∧ env.bytePtrOk = true ∧ code < 65536 ∧
       (env.uc code ms ds).units = [] ∧ (env.uc code ms ds).deadStateOut ≠ 0 ∧
       u = { name := none, unicode := [], is_dead := true }) := by
  simp only [unicode_from_code_static]
  split_ifs with hL hB hC hLen hDead hC0
  all_goals try simp_all [List.length_eq_zero]
  · constructor
    · rintro ⟨h, _⟩
      exact h.symm
    · rintro rfl
      exact ⟨rfl, rfl⟩
  · intro h
    rw [h] at hC0
    simp at hC0
  · rintro rfl
    rfl
  · rintro rfl
    rfl

/-- A left-mouse-down native event used by witnesses. -/
def cgMouseDown : CGEventData :=
  { eventType := .leftMouseDown, userData := 0, sourceOk := true,
    sourceStateIsHID := true, keycode := none, flags := 0,
    buttonNumber := 0, deltaX := 0, deltaY := 0, locX := 3, locY := 4,
    wheelAxis1 := 0, wheelAxis2 := 0 }

def senv0 : SimEnv :=
  { sourceOk := true, keyboardEventOk := true, mouseEventOk := true,
    wheelEventOk := true, newEventOk := true, mouseLoc := (0, 0), lastFlags := 0 }

/-- Raw variants convert to no native event, with the source creation as
the only OS call on the path. -/
theorem convert_native_raw (env : SimEnv) (et : EventType)
    (h : isRawVariant et = true) :
    convert_native env et = (none, [OSCall.createSource]) := by
  have hw : convert_native_with_source env et = (none, []) := by
    cases et <;> first | rfl | exact absurd h (by simp [isRawVariant])
  unfold convert_native
  by_cases hs : env.sourceOk = true
  · rw [if_pos hs]
    simp [hw]
  · rw [if_neg hs]

/-- C6 counterexample: simulating a raw variant does return SimulateError,
but an OS call is issued before the error: the trace already contains the
event-source creation, so the claim that no OS call is issued is false. -/
theorem c6_counterexample :
    (simulate simInit senv0 (.KeyPressRaw .KeyA)).1 = .error .SimulateError ∧
    (simulate simInit senv0 (.KeyPressRaw .KeyA)).2.2 = [OSCall.createSource] ∧
    [OSCall.createSource] ≠ ([] : List OSCall) := by
  refine ⟨rfl, rfl, by simp⟩

/-- C6 (amended): for every raw-variant event type, simulate returns
SimulateError, no native event is constructed or posted, and the only OS
call issued before the error is the creation of the HID-system event
source. -/
theorem c6_raw_amended (st : SimState) (env : SimEnv) (et : EventType)
    (h : isRawVariant et = true) :
    (simulate st env et).1 = .error .SimulateError ∧
    (simulate st env et).2.1 = none ∧
    (simulate st env et).2.2 = [OSCall.createSource] := by
  have hc := convert_native_raw env et h
  unfold simulate
  rw [hc]
  exact ⟨rfl, rfl, rfl⟩

theorem c6_raw_amended_witness :
    (simulate simInit senv0 (.WheelRaw 1 2)).1 = .error .SimulateError ∧
    (simulate simInit senv0 (.WheelRaw 1 2)).2.1 = none ∧
    (simulate simInit senv0 (.WheelRaw 1 2)).2.2 = [OSCall.createSource] :=
  c6_raw_amended simInit senv0 (.WheelRaw 1 2) rfl

/-! ## C7 -/

/-- C7 failing input: after set_mouse_extra_info 5 and
set_keyboard_extra_info 7, simulating a keyboard event (KeyPress KeyA)
posts a native event whose extra-data word is 5, the mouse word — the
keyboard word 7 set by set_keyboard_extra_info is never attached
(KEYBOARD_EXTRA_INFO is stored but never read by simulate). -/
theorem c7_keyboard_extra_info_bug :
    (simulate (set_keyboard_extra_info (set_mouse_extra_info simInit 5) 7) senv0
        (.KeyPress .KeyA)).2.1
      = some { kind := .keyboard 0 true, flags := some 0, userData := some 5 } ∧
    ((5 : Int) ≠ 7) :=
  ⟨rfl, by decide⟩

/-! ## C8 -/

/-- C9: on Windows, in both grab's do_hook (from the source) and listen's
hook install (modelled from the spec, the helpers being outside the
provided sources), when the keyboard hook installs and the mouse hook then
fails, the keyboard hook is uninstalled and the function returns
MouseHookError carrying the OS error code. -/
theorem c9_mouse_hook_failure (st : WinGrabState) (env : WinEnv) (hk : Nat)
    (h1 : st.curHookThreadId = 0) (h2 : st.callbackSet = false)
    (h3 : env.keyboardOnly = false) (h4 : env.keyHook = some hk)
    (h5 : env.mouseHook = none) :
    (do_hook st env).1 = .error (.MouseHookError env.mouseHookErr) ∧
    (do_hook st env).2.2 = [.unhookKeyboard hk] ∧
    (listen_install env).1 = .error (.MouseHookError env.mouseHookErr) ∧
    (listen_install env).2 = [.unhookKeyboard hk] := by
  unfold do_hook listen_install
  rw [h4, h5]
  simp [h1, h2, h3]

/-- Environment for the C9 witness: keyboard hook handle 3, mouse hook
install failing with OS error 1429. -/
def wenv9 : WinEnv :=
  { keyboardOnly := false, keyHook := some 3, keyHookErr := 0,
    mouseHook := none, mouseHookErr := 1429, threadId := 7 }

theorem c9_mouse_hook_failure_witness :
    (do_hook ⟨0, false⟩ wenv9).1 = .error (.MouseHookError wenv9.mouseHookErr) ∧
    (do_hook ⟨0, false⟩ wenv9).2.2 = [.unhookKeyboard 3] ∧
    (listen_install wenv9).1 = .error (.MouseHookError wenv9.mouseHookErr) ∧
    (listen_install wenv9).2 = [.unhookKeyboard 3] :=
  c9_mouse_hook_failure ⟨0, false⟩ wenv9 3 rfl rfl rfl rfl rfl

/-- A Windows hook environment with an injected (synthetic) event. -/
def henv0 : WinHookEnv :=
  { convertResult := (some (.KeyPress .KeyA), 65), scanCode := 30,
    extraData := 100, injected := true, getKeyUnicode := true,
    unicodeResult := none }

theorem c2_synthetic_marking_amended_witness :
    (emit_raw_event (.WheelRaw 0 0)).is_synthetic = false ∧
    (windows_hook_event henv0 (.KeyPress .KeyA) none).is_synthetic = henv0.injected ∧
    (mkEvent (.ButtonPressRaw .Left) none 0 cgMouseDown).is_synthetic
      = isSyntheticOf cgMouseDown := by
  obtain ⟨h1, h2, h3⟩ := c2_synthetic_marking_amended (.WheelRaw 0 0) henv0
    (.KeyPress .KeyA) none cenv0 cgMouseDown 0
  exact ⟨h1, h2, h3 _ (List.mem_cons_self _ _)⟩

/-- The translation environment of the C5 witness: layout data on the
first input source, translation yielding zero units with dead state 3. -/
def tisEnvW : TISEnv :=
  { layout1 := true, layout2 := false, layout3 := false, bytePtrOk := true,
    uc := fun _ _ _ => { units := [], deadStateOut := 3 } }

theorem c5_dead_descriptor_witness :
    (unicode_from_code_static tisEnvW 32 2 0).1
      = some { name := none, unicode := [], is_dead := true } :=
  ((c5_dead_descriptor tisEnvW 32 2 0
      { name := none, unicode := [], is_dead := true }).mpr
    ⟨rfl, rfl, by norm_num, rfl, by intro h; simp [tisEnvW] at h, rfl⟩).1

/-! ## C10 -/

/-- C10: VirtualInput::simulate posts exactly the event built by
convert_native_with_source for its source, whose event-source user-data
field is never written, while the top-level simulate posts the same
construction with the user-data field set to the configured mouse
extra-data word — given the event-source creation succeeds so both paths
run the same construction. -/
theorem c10_virtual_input (env : SimEnv) (et : EventType) (st : SimState)
    (hs : env.sourceOk = true) :
    ((VirtualInput.simulate env et).2.1 = (convert_native_with_source env et).1) ∧
    (∀ ne, (convert_native_with_source env et).1 = some ne → ne.userData = none) ∧
    ((simulate st env et).2.1
      = (convert_native_with_source env et).1.map
          (fun ne => { ne with userData := some st.mouseExtra })) := by
  refine ⟨?_, ?_, ?_⟩
  · unfold VirtualInput.simulate
    rcases h : convert_native_with_source env et with ⟨a, calls⟩
    cases a <;> simp
  · intro ne hne
    cases et <;>
      simp only [convert_native_with_source, build_keyboard_event,
        get_current_mouse_location] at hne <;>
      repeat' split at hne
    all_goals simp_all
    all_goals subst hne
    all_goals rfl
  · unfold simulate convert_native
    rw [if_pos hs]
    rcases h : convert_native_with_source env et with ⟨a, calls⟩
    cases a <;> simp

theorem c10_virtual_input_witness :
    ((VirtualInput.simulate senv0 (.MouseMove 1 2)).2.1
      = (convert_native_with_source senv0 (.MouseMove 1 2)).1) ∧
    (∀ ne, (convert_native_with_source senv0 (.MouseMove 1 2)).1 = some ne →
      ne.userData = none) ∧
    ((simulate simInit senv0 (.MouseMove 1 2)).2.1
      = (convert_native_with_source senv0 (.MouseMove 1 2)).1.map
          (fun ne => { ne with userData := some simInit.mouseExtra })) :=
  c10_virtual_input senv0 (.MouseMove 1 2) simInit rfl

end Rdev
